import Mathlib

/-!
Shallow embedding of the http-cat caching proxy (src/index.js).

The server keeps binary cache entries in files named `<code>.jpg` under a
cache directory, serves them on GET (falling back to an upstream fetch on a
miss), stores request bodies on PUT, and removes entries on DELETE.  We model:

* bytes as `List Nat` (one element per byte of a Node `Buffer`);
* file paths as `List Char`;
* the file system visible to the store as a function `Path → Option Blob`;
* storage faults (errors other than `ENOENT`) and the upstream outcome by an
  explicit fault model threaded through the handler;
* the handler `http.createServer` callback as a pure function from the fault
  model, the cache state and the request to a response, the new cache state
  and the trace of I/O events the handler performed.
-/

namespace HttpCatProxy

/-- Binary content of a Node `Buffer`: a list of bytes. -/
abbrev Blob := List Nat

/-- A file-system path, as the list of its characters. -/
abbrev Path := List Char

/-- The part of the file system the cache store can see: which blob, if any,
is stored at each path. -/
abbrev CacheState := Path → Option Blob

/-- Errors a store operation can raise: `enoent` models a Node error whose
`code` is `ENOENT` (entry absent), `other` models every other storage fault
(permissions, corruption, I/O failure). -/
inductive CacheErr where
  | enoent : CacheErr
  | other : CacheErr
deriving DecidableEq, Repr

/-- Outcome of the single upstream HTTP request issued by `fetchFromHttpCat`:
either a successful binary response body, or one of the failure modes
(network error, non-2xx status, unparseable body, timeout), each of which
makes superagent throw. -/
inductive UpstreamOutcome where
  | success : Blob → UpstreamOutcome
  | netError : UpstreamOutcome
  | non2xx : Nat → UpstreamOutcome
  | malformed : UpstreamOutcome
  | timeout : UpstreamOutcome
deriving DecidableEq, Repr

/-- Whether the upstream outcome is one of the failure modes. -/
def UpstreamOutcome.isFailure : UpstreamOutcome → Bool
  | .success _ => false
  | _ => true

/-- Fault model for one request: whether each store operation faults with a
non-`ENOENT` error, and what the upstream service does if contacted. -/
structure FaultModel where
  readFault : Bool
  writeFault : Bool
  deleteFault : Bool
  upstream : UpstreamOutcome
deriving Repr

/-- Events the handler can perform against the store, the request body and
the upstream service, in order. -/
inductive Ev where
  | readCacheEv : Ev
  | fetchEv : Ev
  | writeCacheEv : Ev
  | deleteCacheEv : Ev
  | readBodyEv : Ev
deriving DecidableEq, Repr

/-- Body of an HTTP response: binary (a cached or fetched blob) or plain
text. -/
inductive RespBody where
  | bin : Blob → RespBody
  | txt : String → RespBody
deriving DecidableEq, Repr

/-- An HTTP response as the handler writes it: status code, `Content-Type`
header, optional `Content-Length` header, and body. -/
structure Response where
  status : Nat
  contentType : String
  contentLength : Option Nat
  body : RespBody
deriving DecidableEq, Repr

/-- An incoming HTTP request: its method, the pathname of its URL, and its
fully-read body. -/
structure Request where
  method : String
  pathname : Path
  body : Blob

/-- JavaScript `String.prototype.split` with a single-character separator:
`"".split(sep) = [""]`, and each occurrence of the separator starts a new
(possibly empty) segment. -/
def jsSplit (sep : Char) : List Char → List (List Char)
  | [] => [[]]
  | c :: cs =>
    match jsSplit sep cs with
    | [] => [[]]
    | w :: ws => if c = sep then [] :: w :: ws else (c :: w) :: ws

/-- Source line `pathname.split('/').filter(Boolean)`: the path segments with
empty segments discarded. -/
def requestParts (p : Path) : List Path :=
  (jsSplit '/' p).filter (fun w => w ≠ [])

/-- JavaScript `String.prototype.toUpperCase` restricted to the ASCII range
(the only characters an HTTP method contains): map each character to its
upper-case form. -/
def jsToUpperCase (s : String) : String :=
  String.mk (s.data.map Char.toUpper)

/-- Source line `/^\d{3}$/.test(code)`: exactly three ASCII digits. -/
def isThreeDigitCode (code : Path) : Bool :=
  code.length == 3 && code.all Char.isDigit

/-- Source: `path.join(cacheDir, code + ".jpg")` — the storage location for a
code. -/
def cacheFilePath (cacheDir : Path) (code : Path) : Path :=
  cacheDir ++ '/' :: (code ++ (".jpg").data)

/-- Source `readFromCache`: `fsPromises.readFile` on the cache file.  Returns
the stored blob, raises `ENOENT` when the entry is absent, or another error
when the read faults. -/
def readFromCache (cacheDir : Path) (fm : FaultModel) (st : CacheState)
    (code : Path) : Except CacheErr Blob :=
  if fm.readFault then .error .other
  else
    match st (cacheFilePath cacheDir code) with
    | some b => .ok b
    | none => .error .enoent

/-- Source `writeToCache`: `fsPromises.writeFile`, replacing any existing
entry; faults leave the state unchanged and raise an error. -/
def writeToCache (cacheDir : Path) (fm : FaultModel) (st : CacheState)
    (code : Path) (buf : Blob) : Except CacheErr CacheState :=
  if fm.writeFault then .error .other
  else .ok (fun p => if p = cacheFilePath cacheDir code then some buf else st p)

/-- Source `deleteFromCache`: `fsPromises.unlink`, which raises `ENOENT` when
the file is absent. -/
def deleteFromCache (cacheDir : Path) (fm : FaultModel) (st : CacheState)
    (code : Path) : Except CacheErr CacheState :=
  if fm.deleteFault then .error .other
  else
    match st (cacheFilePath cacheDir code) with
    | some _ =>
        .ok (fun p => if p = cacheFilePath cacheDir code then none else st p)
    | none => .error .enoent

/-- Source `fetchFromHttpCat`: one superagent GET of `https://http.cat/<code>`
inside `try { ... return res.body } catch { return null }` — every failure
mode collapses to `none`. -/
def fetchFromHttpCat : UpstreamOutcome → Option Blob
  | .success b => some b
  | .netError => none
  | .non2xx _ => none
  | .malformed => none
  | .timeout => none

/-- The GET branch of the request handler (read-through). -/
def handleGet (cacheDir : Path) (fm : FaultModel) (st : CacheState)
    (code : Path) : Response × CacheState × List Ev :=
  match readFromCache cacheDir fm st code with
  | .ok data =>
      (⟨200, "image/jpeg", some data.length, .bin data⟩, st, [Ev.readCacheEv])
  | .error e =>
      if e ≠ CacheErr.enoent then
        (⟨500, "text/plain", none, .txt "Internal Server Error"⟩, st,
          [Ev.readCacheEv])
      else
        match fetchFromHttpCat fm.upstream with
        | none =>
            (⟨404, "text/plain", none, .txt "Not Found"⟩, st,
              [Ev.readCacheEv, Ev.fetchEv])
        | some fetched =>
            let st2 :=
              match writeToCache cacheDir fm st code fetched with
              | .ok s => s
              | .error _ => st
            (⟨200, "image/jpeg", some fetched.length, .bin fetched⟩, st2,
              [Ev.readCacheEv, Ev.fetchEv, Ev.writeCacheEv])

/-- The PUT branch of the request handler (explicit store). -/
def handlePut (cacheDir : Path) (fm : FaultModel) (st : CacheState)
    (code : Path) (bodyBuffer : Blob) : Response × CacheState × List Ev :=
  if bodyBuffer.length = 0 then
    (⟨400, "text/plain", none, .txt "Bad Request: empty body"⟩, st,
      [Ev.readBodyEv])
  else
    match writeToCache cacheDir fm st code bodyBuffer with
    | .ok st2 =>
        (⟨201, "text/plain", none, .txt "Created"⟩, st2,
          [Ev.readBodyEv, Ev.writeCacheEv])
    | .error _ =>
        (⟨500, "text/plain", none, .txt "Internal Server Error"⟩, st,
          [Ev.readBodyEv, Ev.writeCacheEv])

/-- The DELETE branch of the request handler (purge). -/
def handleDelete (cacheDir : Path) (fm : FaultModel) (st : CacheState)
    (code : Path) : Response × CacheState × List Ev :=
  match deleteFromCache cacheDir fm st code with
  | .ok st2 =>
      (⟨200, "text/plain", none, .txt "Deleted"⟩, st2, [Ev.deleteCacheEv])
  | .error .enoent =>
      (⟨404, "text/plain", none, .txt "Not Found"⟩, st, [Ev.deleteCacheEv])
  | .error .other =>
      (⟨500, "text/plain", none, .txt "Internal Server Error"⟩, st,
        [Ev.deleteCacheEv])

/-- Method dispatch after path validation: `req.method.toUpperCase()` compared
against GET, PUT, DELETE; anything else is 405. -/
def handleValidated (cacheDir : Path) (fm : FaultModel) (st : CacheState)
    (method : String) (body : Blob) (code : Path) :
    Response × CacheState × List Ev :=
  let m := jsToUpperCase method
  if m = "GET" then handleGet cacheDir fm st code
  else if m = "PUT" then handlePut cacheDir fm st code body
  else if m = "DELETE" then handleDelete cacheDir fm st code
  else
    (⟨405, "text/plain", none, .txt "Method Not Allowed"⟩, st, [])

/-- The `http.createServer` request callback: splits the pathname on `/`,
discards empty segments, rejects any segment count other than one, rejects a
segment that is not exactly three digits, and otherwise dispatches on the
upper-cased method. -/
def handleRequest (cacheDir : Path) (fm : FaultModel) (st : CacheState)
    (req : Request) : Response × CacheState × List Ev :=
  match requestParts req.pathname with
  | [code] =>
      if isThreeDigitCode code then
        handleValidated cacheDir fm st req.method req.body code
      else
        (⟨400, "text/plain", none,
          .txt "Bad request. Expected three-digit HTTP status code in path, e.g. /200"⟩,
          st, [])
  | _ =>
      (⟨400, "text/plain", none, .txt "Bad request. Expected path like /200"⟩,
        st, [])

/-- The response produced for a request. -/
def respOf (cacheDir : Path) (fm : FaultModel) (st : CacheState)
    (req : Request) : Response :=
  (handleRequest cacheDir fm st req).1

/-- The cache state after a request. -/
def stateOf (cacheDir : Path) (fm : FaultModel) (st : CacheState)
    (req : Request) : CacheState :=
  (handleRequest cacheDir fm st req).2.1

/-- The I/O events a request performed. -/
def traceOf (cacheDir : Path) (fm : FaultModel) (st : CacheState)
    (req : Request) : List Ev :=
  (handleRequest cacheDir fm st req).2.2

/-! Routing lemmas: how the path of a well-formed request `/<code>` parses. -/

theorem jsSplit_eq_of_not_mem (sep : Char) (w : List Char) (h : sep ∉ w) :
    jsSplit sep w = [w] := by
  induction w with
  | nil => rfl
  | cons c cs ih =>
      have hc : ¬ c = sep := fun e => h (by simp [e])
      have hcs : sep ∉ cs := fun m => h (by simp [m])
      simp [jsSplit, ih hcs, hc]

theorem threeDigit_ne_nil (k : Path) (hk : isThreeDigitCode k = true) :
    k ≠ [] := by
  intro e
  subst e
  simp [isThreeDigitCode] at hk

theorem slash_not_mem_threeDigit (k : Path) (hk : isThreeDigitCode k = true) :
    ('/' : Char) ∉ k := by
  intro hm
  have hall : k.all Char.isDigit = true := by
    simp only [isThreeDigitCode, Bool.and_eq_true] at hk
    exact hk.2
  have hd := List.all_eq_true.mp hall '/' hm
  exact absurd hd (by decide)

theorem requestParts_slash_code (k : Path) (hk : isThreeDigitCode k = true) :
    requestParts ('/' :: k) = [k] := by
  have hne : k ≠ [] := threeDigit_ne_nil k hk
  have hs := slash_not_mem_threeDigit k hk
  simp [requestParts, jsSplit, jsSplit_eq_of_not_mem '/' k hs, hne]

theorem handleRequest_valid (cacheDir : Path) (fm : FaultModel) (st : CacheState)
    (m : String) (body : Blob) (k : Path) (hk : isThreeDigitCode k = true) :
    handleRequest cacheDir fm st ⟨m, '/' :: k, body⟩ =
      handleValidated cacheDir fm st m body k := by
  simp [handleRequest, requestParts_slash_code k hk, hk]

/-! Method-dispatch lemmas. -/

theorem handleValidated_get (cacheDir : Path) (fm : FaultModel) (st : CacheState)
    (body : Blob) (k : Path) :
    handleValidated cacheDir fm st "GET" body k = handleGet cacheDir fm st k := by
  have h : jsToUpperCase "GET" = "GET" := by decide
  simp [handleValidated, h]

theorem handleValidated_put (cacheDir : Path) (fm : FaultModel) (st : CacheState)
    (body : Blob) (k : Path) :
    handleValidated cacheDir fm st "PUT" body k =
      handlePut cacheDir fm st k body := by
  have h : jsToUpperCase "PUT" = "PUT" := by decide
  have h1 : ("PUT" : String) ≠ "GET" := by decide
  simp [handleValidated, h, h1]

theorem handleValidated_delete (cacheDir : Path) (fm : FaultModel)
    (st : CacheState) (body : Blob) (k : Path) :
    handleValidated cacheDir fm st "DELETE" body k =
      handleDelete cacheDir fm st k := by
  have h : jsToUpperCase "DELETE" = "DELETE" := by decide
  have h1 : ("DELETE" : String) ≠ "GET" := by decide
  have h2 : ("DELETE" : String) ≠ "PUT" := by decide
  simp [handleValidated, h, h1, h2]

theorem handleValidated_other (cacheDir : Path) (fm : FaultModel)
    (st : CacheState) (m : String) (body : Blob) (k : Path)
    (hg : jsToUpperCase m ≠ "GET") (hp : jsToUpperCase m ≠ "PUT")
    (hd : jsToUpperCase m ≠ "DELETE") :
    handleValidated cacheDir fm st m body k =
      (⟨405, "text/plain", none, .txt "Method Not Allowed"⟩, st, []) := by
  simp [handleValidated, hg, hp, hd]

/-! Behaviour of each branch of the handler. -/

theorem handleGet_hit (cacheDir : Path) (fm : FaultModel) (st : CacheState)
    (k : Path) (d : Blob) (hr : fm.readFault = false)
    (hd : st (cacheFilePath cacheDir k) = some d) :
    handleGet cacheDir fm st k =
      (⟨200, "image/jpeg", some d.length, .bin d⟩, st, [Ev.readCacheEv]) := by
  simp [handleGet, readFromCache, hr, hd]

theorem handleGet_readFault (cacheDir : Path) (fm : FaultModel) (st : CacheState)
    (k : Path) (hr : fm.readFault = true) :
    handleGet cacheDir fm st k =
      (⟨500, "text/plain", none, .txt "Internal Server Error"⟩, st,
        [Ev.readCacheEv]) := by
  simp [handleGet, readFromCache, hr]

theorem handleGet_miss_unavailable (cacheDir : Path) (fm : FaultModel)
    (st : CacheState) (k : Path) (hr : fm.readFault = false)
    (hd : st (cacheFilePath cacheDir k) = none)
    (hu : fetchFromHttpCat fm.upstream = none) :
    handleGet cacheDir fm st k =
      (⟨404, "text/plain", none, .txt "Not Found"⟩, st,
        [Ev.readCacheEv, Ev.fetchEv]) := by
  simp [handleGet, readFromCache, hr, hd, hu]

theorem handleGet_miss_fetched_ok (cacheDir : Path) (fm : FaultModel)
    (st : CacheState) (k : Path) (C : Blob) (hr : fm.readFault = false)
    (hd : st (cacheFilePath cacheDir k) = none)
    (hu : fm.upstream = .success C) (hw : fm.writeFault = false) :
    handleGet cacheDir fm st k =
      (⟨200, "image/jpeg", some C.length, .bin C⟩,
        fun p => if p = cacheFilePath cacheDir k then some C else st p,
        [Ev.readCacheEv, Ev.fetchEv, Ev.writeCacheEv]) := by
  simp [handleGet, readFromCache, hr, hd, hu, fetchFromHttpCat, writeToCache, hw]

theorem handleGet_miss_fetched_writeFault (cacheDir : Path) (fm : FaultModel)
    (st : CacheState) (k : Path) (C : Blob) (hr : fm.readFault = false)
    (hd : st (cacheFilePath cacheDir k) = none)
    (hu : fm.upstream = .success C) (hw : fm.writeFault = true) :
    handleGet cacheDir fm st k =
      (⟨200, "image/jpeg", some C.length, .bin C⟩, st,
        [Ev.readCacheEv, Ev.fetchEv, Ev.writeCacheEv]) := by
  simp [handleGet, readFromCache, hr, hd, hu, fetchFromHttpCat, writeToCache, hw]

theorem handlePut_empty (cacheDir : Path) (fm : FaultModel) (st : CacheState)
    (k : Path) :
    handlePut cacheDir fm st k [] =
      (⟨400, "text/plain", none, .txt "Bad Request: empty body"⟩, st,
        [Ev.readBodyEv]) := by
  simp [handlePut]

theorem handlePut_ok (cacheDir : Path) (fm : FaultModel) (st : CacheState)
    (k : Path) (B : Blob) (hB : B ≠ []) (hw : fm.writeFault = false) :
    handlePut cacheDir fm st k B =
      (⟨201, "text/plain", none, .txt "Created"⟩,
        fun p => if p = cacheFilePath cacheDir k then some B else st p,
        [Ev.readBodyEv, Ev.writeCacheEv]) := by
  have hB' : B.length ≠ 0 := by simpa using hB
  simp [handlePut, hB', writeToCache, hw]

theorem handlePut_writeFault (cacheDir : Path) (fm : FaultModel)
    (st : CacheState) (k : Path) (B : Blob) (hB : B ≠ [])
    (hw : fm.writeFault = true) :
    handlePut cacheDir fm st k B =
      (⟨500, "text/plain", none, .txt "Internal Server Error"⟩, st,
        [Ev.readBodyEv, Ev.writeCacheEv]) := by
  have hB' : B.length ≠ 0 := by simpa using hB
  simp [handlePut, hB', writeToCache, hw]

theorem handleDelete_present (cacheDir : Path) (fm : FaultModel)
    (st : CacheState) (k : Path) (d : Blob) (hf : fm.deleteFault = false)
    (hd : st (cacheFilePath cacheDir k) = some d) :
    handleDelete cacheDir fm st k =
      (⟨200, "text/plain", none, .txt "Deleted"⟩,
        fun p => if p = cacheFilePath cacheDir k then none else st p,
        [Ev.deleteCacheEv]) := by
  simp [handleDelete, deleteFromCache, hf, hd]

theorem handleDelete_absent (cacheDir : Path) (fm : FaultModel)
    (st : CacheState) (k : Path) (hf : fm.deleteFault = false)
    (hd : st (cacheFilePath cacheDir k) = none) :
    handleDelete cacheDir fm st k =
      (⟨404, "text/plain", none, .txt "Not Found"⟩, st, [Ev.deleteCacheEv]) := by
  simp [handleDelete, deleteFromCache, hf, hd]

theorem handleDelete_fault (cacheDir : Path) (fm : FaultModel)
    (st : CacheState) (k : Path) (hf : fm.deleteFault = true) :
    handleDelete cacheDir fm st k =
      (⟨500, "text/plain", none, .txt "Internal Server Error"⟩, st,
        [Ev.deleteCacheEv]) := by
  simp [handleDelete, deleteFromCache, hf]

/-- A fault model with no storage faults and an unreachable upstream. -/
def fmQuiet : FaultModel :=
  ⟨false, false, false, .netError⟩

/-- Claim C4: for every validated key `k` whose cache read succeeds with blob
`d`, GET `/k` responds 200 with `Content-Type: image/jpeg`,
`Content-Length` equal to the byte size of `d`, and body exactly `d`. -/
theorem claim_c4_get_hit (cacheDir : Path) (fm : FaultModel) (st : CacheState)
    (k : Path) (d : Blob) (hk : isThreeDigitCode k = true)
    (hr : fm.readFault = false) (hd : st (cacheFilePath cacheDir k) = some d) :
    respOf cacheDir fm st ⟨"GET", '/' :: k, []⟩ =
      ⟨200, "image/jpeg", some d.length, RespBody.bin d⟩ := by
  simp [respOf, handleRequest_valid cacheDir fm st "GET" [] k hk,
    handleValidated_get, handleGet_hit cacheDir fm st k d hr hd]

/-- Witness for C4 at key 200 with stored blob `[1, 2]`. -/
theorem claim_c4_get_hit_witness :
    respOf ("c".data) fmQuiet (fun _ => some [1, 2])
      ⟨"GET", '/' :: "200".data, []⟩ =
      ⟨200, "image/jpeg", some 2, RespBody.bin [1, 2]⟩ :=
  claim_c4_get_hit ("c".data) fmQuiet (fun _ => some [1, 2]) ("200".data)
    [1, 2] (by decide) rfl rfl

/-- Claim C1: for every validated three-digit key `k` and non-empty body `B`,
a PUT to `/k` with body `B` responds 201 "Created" and stores `B` as the
entry for `k`, and a subsequent GET `/k` on the resulting state, with the
store not faulting, responds 200 with a body byte-identical to `B`. -/
theorem claim_c1_put_get_roundtrip (cacheDir : Path) (fm1 fm2 : FaultModel)
    (st : CacheState) (k : Path) (B : Blob) (hk : isThreeDigitCode k = true)
    (hB : B ≠ []) (hw : fm1.writeFault = false) (hr : fm2.readFault = false) :
    respOf cacheDir fm1 st ⟨"PUT", '/' :: k, B⟩ =
      ⟨201, "text/plain", none, RespBody.txt "Created"⟩ ∧
    stateOf cacheDir fm1 st ⟨"PUT", '/' :: k, B⟩ (cacheFilePath cacheDir k) =
      some B ∧
    respOf cacheDir fm2 (stateOf cacheDir fm1 st ⟨"PUT", '/' :: k, B⟩)
      ⟨"GET", '/' :: k, []⟩ =
      ⟨200, "image/jpeg", some B.length, RespBody.bin B⟩ := by
  have hstate : stateOf cacheDir fm1 st ⟨"PUT", '/' :: k, B⟩ =
      (fun p => if p = cacheFilePath cacheDir k then some B else st p) := by
    simp [stateOf, handleRequest_valid cacheDir fm1 st "PUT" B k hk,
      handleValidated_put, handlePut_ok cacheDir fm1 st k B hB hw]
  refine ⟨?_, ?_, ?_⟩
  · simp [respOf, handleRequest_valid cacheDir fm1 st "PUT" B k hk,
      handleValidated_put, handlePut_ok cacheDir fm1 st k B hB hw]
  · simp [hstate]
  · rw [hstate]
    have happ : (fun p => if p = cacheFilePath cacheDir k then some B else st p)
        (cacheFilePath cacheDir k) = some B := by simp
    simp [respOf, handleRequest_valid cacheDir fm2 _ "GET" [] k hk,
      handleValidated_get,
      handleGet_hit cacheDir fm2
        (fun p => if p = cacheFilePath cacheDir k then some B else st p)
        k B hr happ]

/-- Witness for C1 at key 200 with body `[1, 2, 3]` on an empty cache. -/
theorem claim_c1_put_get_roundtrip_witness :
    respOf ("c".data) fmQuiet (fun _ => none)
      ⟨"PUT", '/' :: "200".data, [1, 2, 3]⟩ =
      ⟨201, "text/plain", none, RespBody.txt "Created"⟩ ∧
    stateOf ("c".data) fmQuiet (fun _ => none)
      ⟨"PUT", '/' :: "200".data, [1, 2, 3]⟩
      (cacheFilePath ("c".data) ("200".data)) = some [1, 2, 3] ∧
    respOf ("c".data) fmQuiet
      (stateOf ("c".data) fmQuiet (fun _ => none)
        ⟨"PUT", '/' :: "200".data, [1, 2, 3]⟩)
      ⟨"GET", '/' :: "200".data, []⟩ =
      ⟨200, "image/jpeg", some 3, RespBody.bin [1, 2, 3]⟩ :=
  claim_c1_put_get_roundtrip ("c".data) fmQuiet fmQuiet (fun _ => none)
    ("200".data) [1, 2, 3] (by decide) (by decide) rfl rfl

/-- Claim C2: on a GET miss (read fails with `ENOENT`), the handler performs
exactly one upstream fetch; every upstream failure mode collapses to the
single unavailable outcome (`fetchFromHttpCat` returns `none`), which the
handler surfaces as a 404 response with plain-text body "Not Found", leaving
the cache unchanged; the response carries no upstream status or error body. -/
theorem claim_c2_miss_unavailable (cacheDir : Path) (fm : FaultModel)
    (st : CacheState) (k : Path) (hk : isThreeDigitCode k = true)
    (hr : fm.readFault = false)
    (hmiss : st (cacheFilePath cacheDir k) = none)
    (hfail : fm.upstream.isFailure = true) :
    fetchFromHttpCat fm.upstream = none ∧
    respOf cacheDir fm st ⟨"GET", '/' :: k, []⟩ =
      ⟨404, "text/plain", none, RespBody.txt "Not Found"⟩ ∧
    stateOf cacheDir fm st ⟨"GET", '/' :: k, []⟩ = st ∧
    (traceOf cacheDir fm st ⟨"GET", '/' :: k, []⟩).count Ev.fetchEv = 1 := by
  have hnone : fetchFromHttpCat fm.upstream = none := by
    cases hu : fm.upstream with
    | success b => rw [hu] at hfail; simp [UpstreamOutcome.isFailure] at hfail
    | netError => rfl
    | non2xx s => rfl
    | malformed => rfl
    | timeout => rfl
  have hbr := handleGet_miss_unavailable cacheDir fm st k hr hmiss hnone
  refine ⟨hnone, ?_, ?_, ?_⟩
  · simp [respOf, handleRequest_valid cacheDir fm st "GET" [] k hk,
      handleValidated_get, hbr]
  · simp [stateOf, handleRequest_valid cacheDir fm st "GET" [] k hk,
      handleValidated_get, hbr]
  · simp [traceOf, handleRequest_valid cacheDir fm st "GET" [] k hk,
      handleValidated_get, hbr]

/-- Witness for C2 at key 200 on an empty cache with upstream answering a
non-2xx status. -/
theorem claim_c2_miss_unavailable_witness :
    fetchFromHttpCat (FaultModel.mk false false false
      (UpstreamOutcome.non2xx 500)).upstream = none ∧
    respOf ("c".data) ⟨false, false, false, UpstreamOutcome.non2xx 500⟩
      (fun _ => none) ⟨"GET", '/' :: "200".data, []⟩ =
      ⟨404, "text/plain", none, RespBody.txt "Not Found"⟩ ∧
    stateOf ("c".data) ⟨false, false, false, UpstreamOutcome.non2xx 500⟩
      (fun _ => none) ⟨"GET", '/' :: "200".data, []⟩ = (fun _ => none) ∧
    (traceOf ("c".data) ⟨false, false, false, UpstreamOutcome.non2xx 500⟩
      (fun _ => none) ⟨"GET", '/' :: "200".data, []⟩).count Ev.fetchEv = 1 :=
  claim_c2_miss_unavailable ("c".data)
    ⟨false, false, false, UpstreamOutcome.non2xx 500⟩ (fun _ => none)
    ("200".data) (by decide) rfl rfl rfl

/-- Claim C3: on a GET miss where the upstream fetch succeeds with blob `C`,
a failing cache write is non-fatal: the request still responds 200 with
`image/jpeg` and body `C`, the cache is left unchanged, and the response is
identical to the one produced when the cache write succeeds. -/
theorem claim_c3_writeback_nonfatal (cacheDir : Path) (fm fmOk : FaultModel)
    (st : CacheState) (k : Path) (C : Blob) (hk : isThreeDigitCode k = true)
    (hr : fm.readFault = false) (hrOk : fmOk.readFault = false)
    (hmiss : st (cacheFilePath cacheDir k) = none)
    (hu : fm.upstream = UpstreamOutcome.success C)
    (huOk : fmOk.upstream = UpstreamOutcome.success C)
    (hw : fm.writeFault = true) (hwOk : fmOk.writeFault = false) :
    respOf cacheDir fm st ⟨"GET", '/' :: k, []⟩ =
      ⟨200, "image/jpeg", some C.length, RespBody.bin C⟩ ∧
    stateOf cacheDir fm st ⟨"GET", '/' :: k, []⟩ = st ∧
    respOf cacheDir fm st ⟨"GET", '/' :: k, []⟩ =
      respOf cacheDir fmOk st ⟨"GET", '/' :: k, []⟩ := by
  have hbr := handleGet_miss_fetched_writeFault cacheDir fm st k C hr hmiss hu hw
  have hbrOk := handleGet_miss_fetched_ok cacheDir fmOk st k C hrOk hmiss huOk hwOk
  refine ⟨?_, ?_, ?_⟩
  · simp [respOf, handleRequest_valid cacheDir fm st "GET" [] k hk,
      handleValidated_get, hbr]
  · simp [stateOf, handleRequest_valid cacheDir fm st "GET" [] k hk,
      handleValidated_get, hbr]
  · simp [respOf, handleRequest_valid cacheDir fm st "GET" [] k hk,
      handleRequest_valid cacheDir fmOk st "GET" [] k hk,
      handleValidated_get, hbr, hbrOk]

/-- Witness for C3 at key 200 with fetched blob `[5]` and a faulting cache
write. -/
theorem claim_c3_writeback_nonfatal_witness :
    respOf ("c".data) ⟨false, true, false, UpstreamOutcome.success [5]⟩
      (fun _ => none) ⟨"GET", '/' :: "200".data, []⟩ =
      ⟨200, "image/jpeg", some 1, RespBody.bin [5]⟩ ∧
    stateOf ("c".data) ⟨false, true, false, UpstreamOutcome.success [5]⟩
      (fun _ => none) ⟨"GET", '/' :: "200".data, []⟩ = (fun _ => none) ∧
    respOf ("c".data) ⟨false, true, false, UpstreamOutcome.success [5]⟩
      (fun _ => none) ⟨"GET", '/' :: "200".data, []⟩ =
    respOf ("c".data) ⟨false, false, false, UpstreamOutcome.success [5]⟩
      (fun _ => none) ⟨"GET", '/' :: "200".data, []⟩ :=
  claim_c3_writeback_nonfatal ("c".data)
    ⟨false, true, false, UpstreamOutcome.success [5]⟩
    ⟨false, false, false, UpstreamOutcome.success [5]⟩
    (fun _ => none) ("200".data) [5] (by decide) rfl rfl rfl rfl rfl rfl rfl

/-- Claim C5: a request whose path yields a segment count other than one, or
a single segment that is not exactly three ASCII digits, is answered 400 with
the corresponding error message regardless of the method, with the cache
untouched and no I/O event performed. -/
theorem claim_c5_bad_path (cacheDir : Path) (fm : FaultModel) (st : CacheState)
    (req : Request) :
    ((requestParts req.pathname).length ≠ 1 →
      handleRequest cacheDir fm st req =
        (⟨400, "text/plain", none,
          RespBody.txt "Bad request. Expected path like /200"⟩, st, [])) ∧
    (∀ c, requestParts req.pathname = [c] → isThreeDigitCode c = false →
      handleRequest cacheDir fm st req =
        (⟨400, "text/plain", none,
          RespBody.txt "Bad request. Expected three-digit HTTP status code in path, e.g. /200"⟩,
          st, [])) := by
  constructor
  · intro h1
    rcases hp : requestParts req.pathname with _ | ⟨a, _ | ⟨b, l⟩⟩
    · simp [handleRequest, hp]
    · exact absurd (by simp [hp]) h1
    · simp [handleRequest, hp]
  · intro c hc hbad
    simp [handleRequest, hc, hbad]

/-- Witness for C5: a two-segment path and a non-digit single segment, each
rejected with its message, under an arbitrary method. -/
theorem claim_c5_bad_path_witness :
    handleRequest ("c".data) fmQuiet (fun _ => none)
      ⟨"GET", "/a/b".data, []⟩ =
      (⟨400, "text/plain", none,
        RespBody.txt "Bad request. Expected path like /200"⟩,
        (fun _ => none), []) ∧
    handleRequest ("c".data) fmQuiet (fun _ => none)
      ⟨"POST", "/2x0".data, []⟩ =
      (⟨400, "text/plain", none,
        RespBody.txt "Bad request. Expected three-digit HTTP status code in path, e.g. /200"⟩,
        (fun _ => none), []) :=
  ⟨(claim_c5_bad_path ("c".data) fmQuiet (fun _ => none)
      ⟨"GET", "/a/b".data, []⟩).1 (by decide),
    (claim_c5_bad_path ("c".data) fmQuiet (fun _ => none)
      ⟨"POST", "/2x0".data, []⟩).2 ("2x0".data) (by decide) (by decide)⟩

/-- Claim C6: with the store not faulting, DELETE `/k` on an existing entry
responds 200 "Deleted" and removes the entry; DELETE `/k` with no entry
responds 404 "Not Found" and leaves the cache unchanged; hence a repeated
DELETE immediately after a successful one yields 404. -/
theorem claim_c6_delete (cacheDir : Path) (fm : FaultModel) (st : CacheState)
    (k : Path) (hk : isThreeDigitCode k = true) (hf : fm.deleteFault = false) :
    (∀ d, st (cacheFilePath cacheDir k) = some d →
      respOf cacheDir fm st ⟨"DELETE", '/' :: k, []⟩ =
        ⟨200, "text/plain", none, RespBody.txt "Deleted"⟩ ∧
      stateOf cacheDir fm st ⟨"DELETE", '/' :: k, []⟩
        (cacheFilePath cacheDir k) = none) ∧
    (st (cacheFilePath cacheDir k) = none →
      respOf cacheDir fm st ⟨"DELETE", '/' :: k, []⟩ =
        ⟨404, "text/plain", none, RespBody.txt "Not Found"⟩ ∧
      stateOf cacheDir fm st ⟨"DELETE", '/' :: k, []⟩ = st) ∧
    (∀ d, st (cacheFilePath cacheDir k) = some d →
      ∀ fm2 : FaultModel, fm2.deleteFault = false →
        respOf cacheDir fm2 (stateOf cacheDir fm st ⟨"DELETE", '/' :: k, []⟩)
          ⟨"DELETE", '/' :: k, []⟩ =
          ⟨404, "text/plain", none, RespBody.txt "Not Found"⟩) := by
  refine ⟨?_, ?_, ?_⟩
  · intro d hd
    have hbr := handleDelete_present cacheDir fm st k d hf hd
    constructor
    · simp [respOf, handleRequest_valid cacheDir fm st "DELETE" [] k hk,
        handleValidated_delete, hbr]
    · simp [stateOf, handleRequest_valid cacheDir fm st "DELETE" [] k hk,
        handleValidated_delete, hbr]
  · intro hd
    have hbr := handleDelete_absent cacheDir fm st k hf hd
    constructor
    · simp [respOf, handleRequest_valid cacheDir fm st "DELETE" [] k hk,
        handleValidated_delete, hbr]
    · simp [stateOf, handleRequest_valid cacheDir fm st "DELETE" [] k hk,
        handleValidated_delete, hbr]
  · intro d hd fm2 hf2
    have hbr := handleDelete_present cacheDir fm st k d hf hd
    have hstate : stateOf cacheDir fm st ⟨"DELETE", '/' :: k, []⟩ =
        (fun p => if p = cacheFilePath cacheDir k then none else st p) := by
      simp [stateOf, handleRequest_valid cacheDir fm st "DELETE" [] k hk,
        handleValidated_delete, hbr]
    rw [hstate]
    have happ : (fun p => if p = cacheFilePath cacheDir k then none else st p)
        (cacheFilePath cacheDir k) = none := by simp
    have hbr2 := handleDelete_absent cacheDir fm2
      (fun p => if p = cacheFilePath cacheDir k then none else st p) k hf2 happ
    simp [respOf, handleRequest_valid cacheDir fm2 _ "DELETE" [] k hk,
      handleValidated_delete, hbr2]

/-- Witness for C6 at key 200 with stored blob `[9]`: delete succeeds, delete
of an absent entry 404s, and a repeated delete 404s. -/
theorem claim_c6_delete_witness :
    (respOf ("c".data) fmQuiet (fun _ => some [9])
      ⟨"DELETE", '/' :: "200".data, []⟩ =
      ⟨200, "text/plain", none, RespBody.txt "Deleted"⟩ ∧
    stateOf ("c".data) fmQuiet (fun _ => some [9])
      ⟨"DELETE", '/' :: "200".data, []⟩
      (cacheFilePath ("c".data) ("200".data)) = none) ∧
    respOf ("c".data) fmQuiet
      (stateOf ("c".data) fmQuiet (fun _ => some [9])
        ⟨"DELETE", '/' :: "200".data, []⟩)
      ⟨"DELETE", '/' :: "200".data, []⟩ =
      ⟨404, "text/plain", none, RespBody.txt "Not Found"⟩ :=
  ⟨(claim_c6_delete ("c".data) fmQuiet (fun _ => some [9]) ("200".data)
      (by decide) rfl).1 [9] rfl,
    (claim_c6_delete ("c".data) fmQuiet (fun _ => some [9]) ("200".data)
      (by decide) rfl).2.2 [9] rfl fmQuiet rfl⟩

/-- Claim C7: a PUT `/k` with an empty (fully-read) body responds 400
"Bad Request: empty body", performs no cache write (the only I/O event is the
body read) and leaves the cache state exactly as it was. -/
theorem claim_c7_put_empty (cacheDir : Path) (fm : FaultModel)
    (st : CacheState) (k : Path) (hk : isThreeDigitCode k = true) :
    handleRequest cacheDir fm st ⟨"PUT", '/' :: k, []⟩ =
      (⟨400, "text/plain", none, RespBody.txt "Bad Request: empty body"⟩,
        st, [Ev.readBodyEv]) := by
  simp [handleRequest_valid cacheDir fm st "PUT" [] k hk,
    handleValidated_put, handlePut_empty]

/-- Witness for C7 at key 200 on a one-entry cache. -/
theorem claim_c7_put_empty_witness :
    handleRequest ("c".data) fmQuiet (fun _ => some [4])
      ⟨"PUT", '/' :: "200".data, []⟩ =
      (⟨400, "text/plain", none, RespBody.txt "Bad Request: empty body"⟩,
        (fun _ => some [4]), [Ev.readBodyEv]) :=
  claim_c7_put_empty ("c".data) fmQuiet (fun _ => some [4]) ("200".data)
    (by decide)

/-- Claim C8: every storage fault other than entry-absent — a non-`ENOENT`
GET read error, a PUT write error, or a non-`ENOENT` DELETE error — is
surfaced as status 500 with the exact plain-text body
"Internal Server Error". -/
theorem claim_c8_storage_faults (cacheDir : Path) (fm : FaultModel)
    (st : CacheState) (k : Path) (hk : isThreeDigitCode k = true) :
    (fm.readFault = true →
      respOf cacheDir fm st ⟨"GET", '/' :: k, []⟩ =
        ⟨500, "text/plain", none, RespBody.txt "Internal Server Error"⟩) ∧
    (∀ B : Blob, B ≠ [] → fm.writeFault = true →
      respOf cacheDir fm st ⟨"PUT", '/' :: k, B⟩ =
        ⟨500, "text/plain", none, RespBody.txt "Internal Server Error"⟩) ∧
    (fm.deleteFault = true →
      respOf cacheDir fm st ⟨"DELETE", '/' :: k, []⟩ =
        ⟨500, "text/plain", none, RespBody.txt "Internal Server Error"⟩) := by
  refine ⟨?_, ?_, ?_⟩
  · intro hr
    simp [respOf, handleRequest_valid cacheDir fm st "GET" [] k hk,
      handleValidated_get, handleGet_readFault cacheDir fm st k hr]
  · intro B hB hw
    simp [respOf, handleRequest_valid cacheDir fm st "PUT" B k hk,
      handleValidated_put, handlePut_writeFault cacheDir fm st k B hB hw]
  · intro hf
    simp [respOf, handleRequest_valid cacheDir fm st "DELETE" [] k hk,
      handleValidated_delete, handleDelete_fault cacheDir fm st k hf]

/-- Witness for C8 at key 200 with all three store operations faulting. -/
theorem claim_c8_storage_faults_witness :
    respOf ("c".data) ⟨true, true, true, UpstreamOutcome.netError⟩
      (fun _ => none) ⟨"GET", '/' :: "200".data, []⟩ =
      ⟨500, "text/plain", none, RespBody.txt "Internal Server Error"⟩ ∧
    respOf ("c".data) ⟨true, true, true, UpstreamOutcome.netError⟩
      (fun _ => none) ⟨"PUT", '/' :: "200".data, [8]⟩ =
      ⟨500, "text/plain", none, RespBody.txt "Internal Server Error"⟩ ∧
    respOf ("c".data) ⟨true, true, true, UpstreamOutcome.netError⟩
      (fun _ => none) ⟨"DELETE", '/' :: "200".data, []⟩ =
      ⟨500, "text/plain", none, RespBody.txt "Internal Server Error"⟩ :=
  ⟨(claim_c8_storage_faults ("c".data)
      ⟨true, true, true, UpstreamOutcome.netError⟩ (fun _ => none)
      ("200".data) (by decide)).1 rfl,
    (claim_c8_storage_faults ("c".data)
      ⟨true, true, true, UpstreamOutcome.netError⟩ (fun _ => none)
      ("200".data) (by decide)).2.1 [8] (by decide) rfl,
    (claim_c8_storage_faults ("c".data)
      ⟨true, true, true, UpstreamOutcome.netError⟩ (fun _ => none)
      ("200".data) (by decide)).2.2 rfl⟩

/-- Claim C9: a request with a valid three-digit path whose upper-cased
method is none of GET, PUT, DELETE is answered 405 "Method Not Allowed" with
the cache untouched and no I/O event performed. -/
theorem claim_c9_method_not_allowed (cacheDir : Path) (fm : FaultModel)
    (st : CacheState) (k : Path) (m : String) (body : Blob)
    (hk : isThreeDigitCode k = true)
    (hg : jsToUpperCase m ≠ "GET") (hp : jsToUpperCase m ≠ "PUT")
    (hd : jsToUpperCase m ≠ "DELETE") :
    handleRequest cacheDir fm st ⟨m, '/' :: k, body⟩ =
      (⟨405, "text/plain", none, RespBody.txt "Method Not Allowed"⟩, st, []) := by
  rw [handleRequest_valid cacheDir fm st m body k hk,
    handleValidated_other cacheDir fm st m body k hg hp hd]

/-- Witness for C9: a PATCH to a valid path is answered 405. -/
theorem claim_c9_method_not_allowed_witness :
    handleRequest ("c".data) fmQuiet (fun _ => none)
      ⟨"PATCH", '/' :: "200".data, []⟩ =
      (⟨405, "text/plain", none, RespBody.txt "Method Not Allowed"⟩,
        (fun _ => none), []) :=
  claim_c9_method_not_allowed ("c".data) fmQuiet (fun _ => none) ("200".data)
    "PATCH" [] (by decide) (by decide) (by decide) (by decide)

/-! Frame lemmas: each branch touches at most the storage location of its own
key. -/

theorem fetch_success_of_some (fm : FaultModel) (C : Blob)
    (hu : fetchFromHttpCat fm.upstream = some C) :
    fm.upstream = UpstreamOutcome.success C := by
  cases h2 : fm.upstream with
  | success b =>
      rw [h2] at hu
      simp [fetchFromHttpCat] at hu
      rw [hu]
  | netError => rw [h2] at hu; simp [fetchFromHttpCat] at hu
  | non2xx s => rw [h2] at hu; simp [fetchFromHttpCat] at hu
  | malformed => rw [h2] at hu; simp [fetchFromHttpCat] at hu
  | timeout => rw [h2] at hu; simp [fetchFromHttpCat] at hu

theorem handleGet_state_frame (cacheDir : Path) (fm : FaultModel)
    (st : CacheState) (k : Path) (p : Path)
    (hp : p ≠ cacheFilePath cacheDir k) :
    (handleGet cacheDir fm st k).2.1 p = st p := by
  by_cases hr : fm.readFault = true
  · rw [handleGet_readFault cacheDir fm st k hr]
  · have hr' : fm.readFault = false := by simpa using hr
    cases hd : st (cacheFilePath cacheDir k) with
    | some d => rw [handleGet_hit cacheDir fm st k d hr' hd]
    | none =>
        cases hu : fetchFromHttpCat fm.upstream with
        | none => rw [handleGet_miss_unavailable cacheDir fm st k hr' hd hu]
        | some C =>
            have hsucc := fetch_success_of_some fm C hu
            by_cases hw : fm.writeFault = true
            · rw [handleGet_miss_fetched_writeFault cacheDir fm st k C hr' hd
                hsucc hw]
            · have hw' : fm.writeFault = false := by simpa using hw
              rw [handleGet_miss_fetched_ok cacheDir fm st k C hr' hd hsucc hw']
              simp [hp]

theorem handlePut_state_frame (cacheDir : Path) (fm : FaultModel)
    (st : CacheState) (k : Path) (B : Blob) (p : Path)
    (hp : p ≠ cacheFilePath cacheDir k) :
    (handlePut cacheDir fm st k B).2.1 p = st p := by
  by_cases hB : B = []
  · subst hB
    rw [handlePut_empty]
  · by_cases hw : fm.writeFault = true
    · rw [handlePut_writeFault cacheDir fm st k B hB hw]
    · have hw' : fm.writeFault = false := by simpa using hw
      rw [handlePut_ok cacheDir fm st k B hB hw']
      simp [hp]

theorem handleDelete_state_frame (cacheDir : Path) (fm : FaultModel)
    (st : CacheState) (k : Path) (p : Path)
    (hp : p ≠ cacheFilePath cacheDir k) :
    (handleDelete cacheDir fm st k).2.1 p = st p := by
  by_cases hf : fm.deleteFault = true
  · rw [handleDelete_fault cacheDir fm st k hf]
  · have hf' : fm.deleteFault = false := by simpa using hf
    cases hd : st (cacheFilePath cacheDir k) with
    | some d =>
        rw [handleDelete_present cacheDir fm st k d hf' hd]
        simp [hp]
    | none => rw [handleDelete_absent cacheDir fm st k hf' hd]

theorem handleValidated_state_frame (cacheDir : Path) (fm : FaultModel)
    (st : CacheState) (m : String) (body : Blob) (k : Path) (p : Path)
    (hp : p ≠ cacheFilePath cacheDir k) :
    (handleValidated cacheDir fm st m body k).2.1 p = st p := by
  by_cases hg : jsToUpperCase m = "GET"
  · simp only [handleValidated, hg, if_pos]
    exact handleGet_state_frame cacheDir fm st k p hp
  · by_cases hput : jsToUpperCase m = "PUT"
    · simp only [handleValidated, hg, hput, if_neg, if_pos, ite_false, ite_true]
      exact handlePut_state_frame cacheDir fm st k body p hp
    · by_cases hdel : jsToUpperCase m = "DELETE"
      · simp only [handleValidated, hg, hput, hdel, ite_false, ite_true]
        exact handleDelete_state_frame cacheDir fm st k p hp
      · simp [handleValidated, hg, hput, hdel]

/-- Claim C10: the key-to-storage-location mapping is injective on validated
keys, and any single request whose path parses to key `k` leaves the blob at
every other storage location — in particular the entry of every other key —
unchanged. -/
theorem claim_c10_injective_frame (cacheDir : Path) :
    (∀ k k' : Path, isThreeDigitCode k = true → isThreeDigitCode k' = true →
      k ≠ k' → cacheFilePath cacheDir k ≠ cacheFilePath cacheDir k') ∧
    (∀ (fm : FaultModel) (st : CacheState) (req : Request) (k : Path),
      requestParts req.pathname = [k] →
      ∀ p, p ≠ cacheFilePath cacheDir k →
        stateOf cacheDir fm st req p = st p) := by
  constructor
  · intro k k' _ _ hne heq
    apply hne
    unfold cacheFilePath at heq
    have h1 := List.append_cancel_left heq
    have h2 : k ++ (".jpg").data = k' ++ (".jpg").data := by
      injection h1
    exact List.append_cancel_right h2
  · intro fm st req k hparts p hp
    by_cases hk : isThreeDigitCode k = true
    · have : handleRequest cacheDir fm st req =
          handleValidated cacheDir fm st req.method req.body k := by
        simp [handleRequest, hparts, hk]
      rw [stateOf, this]
      exact handleValidated_state_frame cacheDir fm st req.method req.body k p hp
    · have : handleRequest cacheDir fm st req =
          (⟨400, "text/plain", none,
            RespBody.txt "Bad request. Expected three-digit HTTP status code in path, e.g. /200"⟩,
            st, []) := by
        simp [handleRequest, hparts, hk]
      rw [stateOf, this]

/-- Witness for C10: keys 200 and 201 map to distinct files, and a PUT to
`/200` leaves the entry of 201 unchanged. -/
theorem claim_c10_injective_frame_witness :
    cacheFilePath ("c".data) ("200".data) ≠ cacheFilePath ("c".data) ("201".data) ∧
    stateOf ("c".data) fmQuiet (fun _ => some [3])
      ⟨"PUT", '/' :: "200".data, [7]⟩ (cacheFilePath ("c".data) ("201".data)) =
      (fun _ => some ([3] : Blob)) (cacheFilePath ("c".data) ("201".data)) :=
  ⟨(claim_c10_injective_frame ("c".data)).1 ("200".data) ("201".data)
      (by decide) (by decide) (by decide),
    (claim_c10_injective_frame ("c".data)).2 fmQuiet (fun _ => some [3])
      ⟨"PUT", '/' :: "200".data, [7]⟩ ("200".data) (by decide)
      (cacheFilePath ("c".data) ("201".data)) (by decide)⟩

end HttpCatProxy
